import Mathlib

/-!
Shallow embedding of the brachistochrone race demo
(src/src/components/BrachistochroneDemo.tsx).

The embedding follows the source component field by field:
the four parametric curves and their total times, the per-frame clock
update performed by drawFrame (lines 168-181), the per-frame ranking
computation (lines 203-226), the frozen elapsed-time update (lines
228-237), the completion check and tick scheduling (lines 239-245),
the four control handlers (lines 259-283), and the rank-change arrow
logic of the rankings display (lines 409-426).

Real-valued JS arithmetic is modelled over the real numbers.
-/

namespace Brachistochrone

/-- One entry of the curves object: parametric position function,
display color, and total traversal time in seconds. -/
structure CurveData where
  func : ℝ → ℝ × ℝ
  color : String
  time : ℝ

/-- Brachistochrone curve (source lines 46-53):
theta = t * PI, position ((theta - sin theta)/PI, (1 - cos theta)/2). -/
noncomputable def brachistochroneFunc (t : ℝ) : ℝ × ℝ :=
  ((t * Real.pi - Real.sin (t * Real.pi)) / Real.pi,
   (1 - Real.cos (t * Real.pi)) / 2)

/-- Straight-line curve (source lines 54-58): (t, t). -/
noncomputable def straightLineFunc (t : ℝ) : ℝ × ℝ := (t, t)

/-- Parabola curve (source lines 59-63): (t, t * (2 - t)). -/
noncomputable def parabolaFunc (t : ℝ) : ℝ × ℝ := (t, t * (2 - t))

/-- Parametric cycloid curve (source lines 64-73), depending on the
cycloidParameter E: (t - sin(PI t)/PI, (1 - cos(PI t))/2 + E sin(PI t)^2). -/
noncomputable def parametricCycloidFunc (E : ℝ) (t : ℝ) : ℝ × ℝ :=
  (t - Real.sin (Real.pi * t) / Real.pi,
   (1 - Real.cos (Real.pi * t)) / 2 + E * Real.sin (Real.pi * t) ^ 2)

/-- The curves object (source lines 45-74), in its insertion order,
rebuilt from the current cycloidParameter E. -/
noncomputable def curves (E : ℝ) : List (String × CurveData) :=
  [("Brachistochrone", ⟨brachistochroneFunc, "#3b82f6", 2.0⟩),
   ("Straight Line", ⟨straightLineFunc, "#ef4444", 2.5⟩),
   ("Parabola", ⟨parabolaFunc, "#8b5cf6", 2.1⟩),
   ("Parametric Cycloid", ⟨parametricCycloidFunc E, "#f59e0b", 2.0 * (1 + E)⟩)]

/-- Progress of a curve: Math.min(elapsedTime / curve.time, 1)
(source lines 191 and 204). -/
noncomputable def progressOf (elapsed time : ℝ) : ℝ := min (elapsed / time) 1

/-- Distance from a position to the goal (1,1):
Math.sqrt((1-x)^2 + (1-y)^2) (source line 206). -/
noncomputable def distanceToGoal (p : ℝ × ℝ) : ℝ :=
  Real.sqrt ((1 - p.1) ^ 2 + (1 - p.2) ^ 2)

/-- The per-tick progressData array (source lines 203-208):
for each curve in insertion order, (label, progress, distance to goal). -/
noncomputable def progressData (E elapsed : ℝ) : List (String × ℝ × ℝ) :=
  (curves E).map fun p =>
    (p.1, progressOf elapsed p.2.time,
     distanceToGoal (p.2.func (progressOf elapsed p.2.time)))

/-- Stable insertion of an entry into a list ordered by ascending distance
(third component); an entry is placed before the first strictly-later
position allowed by the comparator, i.e. after nothing it is ≤ to.
Together with sortByDist this models the stable ascending
Array.prototype.sort((a, b) => a[2] - b[2]) of source line 211. -/
noncomputable def insertByDist (x : String × ℝ × ℝ) :
    List (String × ℝ × ℝ) → List (String × ℝ × ℝ)
  | [] => [x]
  | y :: ys => if x.2.2 ≤ y.2.2 then x :: y :: ys else y :: insertByDist x ys

/-- Stable sort by ascending distance (source line 211). -/
noncomputable def sortByDist : List (String × ℝ × ℝ) → List (String × ℝ × ℝ)
  | [] => []
  | x :: xs => insertByDist x (sortByDist xs)

/-- The freshly computed ranking of a tick: labels of the sorted
progressData (source line 214). -/
noncomputable def newRankings (E elapsed : ℝ) : List String :=
  (sortByDist (progressData E elapsed)).map Prod.fst

/-- Math.max(...Object.values(curves).map(c => c.time)) (source line 239),
modelled as a fold of max over the times (all times are positive, so the
extra 0 base does not change the value). -/
noncomputable def maxTotalTime (E : ℝ) : ℝ :=
  ((curves E).map fun p => p.2.time).foldr max 0

/-- curves[label].time, looked up by label (source line 233). -/
noncomputable def lookupTime (E : ℝ) (l : String) : Option ℝ :=
  ((curves E).find? fun p => p.1 = l).map fun p => p.2.time

/-- The animationState React state: 'idle' | 'running' | 'paused'. -/
inductive Phase
  | idle
  | running
  | paused
deriving DecidableEq

/-- The component state: React state hooks and refs of the source
(lines 30-42), plus a scheduledTick flag recording whether the most
recent drawFrame call scheduled a follow-up animation frame. -/
structure SimState where
  animationState : Phase
  animationSpeed : ℝ
  cycloidParameter : ℝ
  pausedElapsedTime : ℝ
  startTime : Option ℝ
  lastTimestamp : Option ℝ
  isAnimationComplete : Bool
  rankings : List String
  prevRankings : List String
  distanceToEnd : String → Option ℝ
  elapsedTimes : String → Option ℝ
  scheduledTick : Bool

/-- Initial hook values (source lines 30-42). -/
noncomputable def initialState : SimState :=
  { animationState := Phase.idle
    animationSpeed := 0.5
    cycloidParameter := 0.2
    pausedElapsedTime := 0
    startTime := none
    lastTimestamp := none
    isAnimationComplete := false
    rankings := []
    prevRankings := []
    distanceToEnd := fun _ => none
    elapsedTimes := fun _ => none
    scheduledTick := false }

/-- JavaScript (x || d) on a nullable number: null and 0 are falsy. -/
noncomputable def jsOr (o : Option ℝ) (d : ℝ) : ℝ :=
  match o with
  | none => d
  | some v => if v = 0 then d else v

/-- The elapsed time computed by drawFrame (source lines 169-181):
if startTimeRef is null both refs are first set to the timestamp; while
running, elapsed = pausedElapsedTime + (timestamp - last) / 1000 * speed,
otherwise elapsed = pausedElapsedTime. -/
noncomputable def tickElapsed (ts : ℝ) (s : SimState) : ℝ :=
  let last := if s.startTime = none then some ts else s.lastTimestamp
  if s.animationState = Phase.running then
    s.pausedElapsedTime + (ts - jsOr last ts) / 1000 * s.animationSpeed
  else s.pausedElapsedTime

/-- The ref updates of source lines 169-178: initialise startTimeRef and
lastTimestampRef on the first call, and while running record the current
timestamp as lastTimestampRef. -/
noncomputable def tickClockState (ts : ℝ) (s : SimState) : SimState :=
  let s1 := if s.startTime = none then
    { s with startTime := some ts, lastTimestamp := some ts } else s
  if s.animationState = Phase.running then
    { s1 with lastTimestamp := some ts } else s1

/-- setDistanceToEnd of source lines 220-226: start from the previous
map and overwrite the entry of every label occurring in progressData. -/
noncomputable def mergeDistances (pd : List (String × ℝ × ℝ))
    (old : String → Option ℝ) : String → Option ℝ :=
  fun l =>
    match pd.find? (fun q => q.1 = l) with
    | some q => some q.2.2
    | none => old l

/-- setElapsedTimes of source lines 230-236: start from the previous map
and, for every label occurring in progressData, store that curve's time. -/
noncomputable def freezeTimes (E : ℝ) (pd : List (String × ℝ × ℝ))
    (old : String → Option ℝ) : String → Option ℝ :=
  fun l =>
    match pd.find? (fun q => q.1 = l) with
    | some _ => lookupTime E l
    | none => old l

/-- The ranking-related state updates of one drawFrame call
(source lines 203-237): publish the new ranking if it changed, archiving
the previous one; merge the fresh distances into distanceToEnd; and, only
if the animation was already complete at the start of the call, write
each label's curve time into elapsedTimes. -/
noncomputable def tickRankingsState (elapsed : ℝ) (s : SimState) : SimState :=
  let pd := progressData s.cycloidParameter elapsed
  let nr := (sortByDist pd).map Prod.fst
  let s1 := if nr ≠ s.rankings then
    { s with prevRankings := s.rankings, rankings := nr } else s
  let s2 := { s1 with distanceToEnd := mergeDistances pd s.distanceToEnd }
  if s.isAnimationComplete then
    { s2 with elapsedTimes := freezeTimes s.cycloidParameter pd s.elapsedTimes }
  else s2

/-- The completion check and scheduling of source lines 239-245:
if elapsed reached the largest total time, go idle and set the complete
flag without scheduling; otherwise, while running, bank the elapsed time
and schedule the next animation frame. -/
noncomputable def tickFinish (elapsed : ℝ) (s : SimState) : SimState :=
  if maxTotalTime s.cycloidParameter ≤ elapsed then
    { s with
      animationState := Phase.idle
      isAnimationComplete := true
      scheduledTick := false }
  else if s.animationState = Phase.running then
    { s with pausedElapsedTime := elapsed, scheduledTick := true }
  else
    { s with scheduledTick := false }

/-- One drawFrame call (source lines 168-246). -/
noncomputable def drawFrame (ts : ℝ) (s : SimState) : SimState :=
  let elapsed := tickElapsed ts s
  tickFinish elapsed (tickRankingsState elapsed (tickClockState ts s))

/-- handleStartAnimation (source lines 259-266). -/
noncomputable def handleStartAnimation (s : SimState) : SimState :=
  { s with
    startTime := none
    lastTimestamp := none
    pausedElapsedTime := 0
    animationState := Phase.running
    elapsedTimes := fun _ => none
    isAnimationComplete := false }

/-- handlePauseAnimation (source lines 268-270). -/
noncomputable def handlePauseAnimation (s : SimState) : SimState :=
  { s with animationState := Phase.paused }

/-- handleResumeAnimation (source lines 272-275). -/
noncomputable def handleResumeAnimation (s : SimState) : SimState :=
  { s with lastTimestamp := none, animationState := Phase.running }

/-- handleResetAnimation (source lines 277-283). -/
noncomputable def handleResetAnimation (s : SimState) : SimState :=
  { s with
    startTime := none
    lastTimestamp := none
    pausedElapsedTime := 0
    animationState := Phase.idle
    elapsedTimes := fun _ => none }

/-- The effect cleanup (source lines 254-256): cancelAnimationFrame on the
pending scheduled tick. -/
noncomputable def effectCleanup (s : SimState) : SimState :=
  { s with scheduledTick := false }

/-- The metric shown per label in the rankings panel (source lines
403-408): the frozen elapsed time once complete, else the live distance. -/
noncomputable def displayMetric (s : SimState) (l : String) :
    Option ℝ ⊕ Option ℝ :=
  if s.isAnimationComplete then Sum.inl (s.elapsedTimes l)
  else Sum.inr (s.distanceToEnd l)

/-- JavaScript Array.prototype.indexOf: first index of the element,
or -1 when absent. -/
def indexOfJS : List String → String → ℤ
  | [], _ => -1
  | y :: ys, x =>
    if y = x then 0
    else
      let r := indexOfJS ys x
      if r = -1 then -1 else r + 1

/-- Rank-change arrow of the rankings display. -/
inductive Arrow
  | up
  | down
deriving DecidableEq

/-- The rank-change indicator of source lines 409-426: shown only while
not complete and when prevRankings.indexOf(label) differs from the
rendered index; an up arrow exactly when the previous index is larger. -/
def rankIndicator (complete : Bool) (prev : List String) (label : String)
    (index : ℕ) : Option Arrow :=
  if complete = false ∧ indexOfJS prev label ≠ (index : ℤ) then
    some (if (index : ℤ) < indexOfJS prev label then Arrow.up else Arrow.down)
  else none

/-! ### Basic curve evaluations -/

lemma brachistochroneFunc_zero : brachistochroneFunc 0 = (0, 0) := by
  simp [brachistochroneFunc]

lemma brachistochroneFunc_one : brachistochroneFunc 1 = (1, 1) := by
  unfold brachistochroneFunc
  rw [one_mul, Real.sin_pi, Real.cos_pi]
  rw [Prod.mk.injEq]
  constructor
  · rw [sub_zero, div_self Real.pi_ne_zero]
  · norm_num

lemma straightLineFunc_zero : straightLineFunc 0 = (0, 0) := rfl

lemma straightLineFunc_one : straightLineFunc 1 = (1, 1) := rfl

lemma parabolaFunc_zero : parabolaFunc 0 = (0, 0) := by
  simp [parabolaFunc]

lemma parabolaFunc_one : parabolaFunc 1 = (1, 1) := by
  norm_num [parabolaFunc]

lemma parametricCycloidFunc_zero (E : ℝ) : parametricCycloidFunc E 0 = (0, 0) := by
  simp [parametricCycloidFunc]

lemma parametricCycloidFunc_one (E : ℝ) : parametricCycloidFunc E 1 = (1, 1) := by
  unfold parametricCycloidFunc
  rw [mul_one, Real.sin_pi, Real.cos_pi]
  norm_num

lemma progressOf_zero (T : ℝ) : progressOf 0 T = 0 := by
  simp [progressOf]

/-! ### Projection lemmas for the state transformers -/

lemma tickClockState_animationState (ts : ℝ) (s : SimState) :
    (tickClockState ts s).animationState = s.animationState := by
  simp only [tickClockState]
  split <;> split <;> rfl

lemma tickClockState_animationSpeed (ts : ℝ) (s : SimState) :
    (tickClockState ts s).animationSpeed = s.animationSpeed := by
  simp only [tickClockState]
  split <;> split <;> rfl

lemma tickClockState_cycloidParameter (ts : ℝ) (s : SimState) :
    (tickClockState ts s).cycloidParameter = s.cycloidParameter := by
  simp only [tickClockState]
  split <;> split <;> rfl

lemma tickClockState_pausedElapsedTime (ts : ℝ) (s : SimState) :
    (tickClockState ts s).pausedElapsedTime = s.pausedElapsedTime := by
  simp only [tickClockState]
  split <;> split <;> rfl

lemma tickClockState_isAnimationComplete (ts : ℝ) (s : SimState) :
    (tickClockState ts s).isAnimationComplete = s.isAnimationComplete := by
  simp only [tickClockState]
  split <;> split <;> rfl

lemma tickClockState_rankings (ts : ℝ) (s : SimState) :
    (tickClockState ts s).rankings = s.rankings := by
  simp only [tickClockState]
  split <;> split <;> rfl

lemma tickClockState_prevRankings (ts : ℝ) (s : SimState) :
    (tickClockState ts s).prevRankings = s.prevRankings := by
  simp only [tickClockState]
  split <;> split <;> rfl

lemma tickClockState_distanceToEnd (ts : ℝ) (s : SimState) :
    (tickClockState ts s).distanceToEnd = s.distanceToEnd := by
  simp only [tickClockState]
  split <;> split <;> rfl

lemma tickClockState_elapsedTimes (ts : ℝ) (s : SimState) :
    (tickClockState ts s).elapsedTimes = s.elapsedTimes := by
  simp only [tickClockState]
  split <;> split <;> rfl

lemma tickClockState_startTime (ts : ℝ) (s : SimState) :
    (tickClockState ts s).startTime =
      if s.startTime = none then some ts else s.startTime := by
  simp only [tickClockState]
  split <;> split <;> rfl

lemma tickClockState_lastTimestamp (ts : ℝ) (s : SimState) :
    (tickClockState ts s).lastTimestamp =
      if s.animationState = Phase.running then some ts
      else if s.startTime = none then some ts else s.lastTimestamp := by
  simp only [tickClockState]
  split <;> split <;> simp_all

lemma tickRankingsState_animationState (e : ℝ) (s : SimState) :
    (tickRankingsState e s).animationState = s.animationState := by
  simp only [tickRankingsState]
  split <;> split <;> rfl

lemma tickRankingsState_animationSpeed (e : ℝ) (s : SimState) :
    (tickRankingsState e s).animationSpeed = s.animationSpeed := by
  simp only [tickRankingsState]
  split <;> split <;> rfl

lemma tickRankingsState_cycloidParameter (e : ℝ) (s : SimState) :
    (tickRankingsState e s).cycloidParameter = s.cycloidParameter := by
  simp only [tickRankingsState]
  split <;> split <;> rfl

lemma tickRankingsState_pausedElapsedTime (e : ℝ) (s : SimState) :
    (tickRankingsState e s).pausedElapsedTime = s.pausedElapsedTime := by
  simp only [tickRankingsState]
  split <;> split <;> rfl

lemma tickRankingsState_startTime (e : ℝ) (s : SimState) :
    (tickRankingsState e s).startTime = s.startTime := by
  simp only [tickRankingsState]
  split <;> split <;> rfl

lemma tickRankingsState_lastTimestamp (e : ℝ) (s : SimState) :
    (tickRankingsState e s).lastTimestamp = s.lastTimestamp := by
  simp only [tickRankingsState]
  split <;> split <;> rfl

lemma tickRankingsState_isAnimationComplete (e : ℝ) (s : SimState) :
    (tickRankingsState e s).isAnimationComplete = s.isAnimationComplete := by
  simp only [tickRankingsState]
  split <;> split <;> rfl

lemma tickRankingsState_scheduledTick (e : ℝ) (s : SimState) :
    (tickRankingsState e s).scheduledTick = s.scheduledTick := by
  simp only [tickRankingsState]
  split <;> split <;> rfl

lemma tickRankingsState_rankings (e : ℝ) (s : SimState) :
    (tickRankingsState e s).rankings = newRankings s.cycloidParameter e := by
  simp only [tickRankingsState, newRankings]
  split <;> split <;> simp_all

lemma tickRankingsState_elapsedTimes (e : ℝ) (s : SimState) :
    (tickRankingsState e s).elapsedTimes =
      if s.isAnimationComplete then
        freezeTimes s.cycloidParameter (progressData s.cycloidParameter e)
          s.elapsedTimes
      else s.elapsedTimes := by
  simp only [tickRankingsState]
  split <;> split <;> simp_all

lemma tickFinish_animationState (e : ℝ) (s : SimState) :
    (tickFinish e s).animationState =
      if maxTotalTime s.cycloidParameter ≤ e then Phase.idle
      else s.animationState := by
  simp only [tickFinish]
  split
  · rfl
  · split <;> simp_all

lemma tickFinish_isAnimationComplete (e : ℝ) (s : SimState) :
    (tickFinish e s).isAnimationComplete =
      if maxTotalTime s.cycloidParameter ≤ e then true
      else s.isAnimationComplete := by
  simp only [tickFinish]
  split
  · rfl
  · split <;> simp_all

lemma tickFinish_pausedElapsedTime (e : ℝ) (s : SimState) :
    (tickFinish e s).pausedElapsedTime =
      if maxTotalTime s.cycloidParameter ≤ e then s.pausedElapsedTime
      else if s.animationState = Phase.running then e
      else s.pausedElapsedTime := by
  simp only [tickFinish]
  split
  · rfl
  · split <;> simp_all

lemma tickFinish_scheduledTick (e : ℝ) (s : SimState) :
    (tickFinish e s).scheduledTick =
      if maxTotalTime s.cycloidParameter ≤ e then false
      else if s.animationState = Phase.running then true
      else false := by
  simp only [tickFinish]
  split
  · rfl
  · split <;> simp_all

lemma tickFinish_startTime (e : ℝ) (s : SimState) :
    (tickFinish e s).startTime = s.startTime := by
  simp only [tickFinish]
  split
  · rfl
  · split <;> rfl

lemma tickFinish_lastTimestamp (e : ℝ) (s : SimState) :
    (tickFinish e s).lastTimestamp = s.lastTimestamp := by
  simp only [tickFinish]
  split
  · rfl
  · split <;> rfl

lemma tickFinish_cycloidParameter (e : ℝ) (s : SimState) :
    (tickFinish e s).cycloidParameter = s.cycloidParameter := by
  simp only [tickFinish]
  split
  · rfl
  · split <;> rfl

lemma tickFinish_animationSpeed (e : ℝ) (s : SimState) :
    (tickFinish e s).animationSpeed = s.animationSpeed := by
  simp only [tickFinish]
  split
  · rfl
  · split <;> rfl

lemma tickFinish_rankings (e : ℝ) (s : SimState) :
    (tickFinish e s).rankings = s.rankings := by
  simp only [tickFinish]
  split
  · rfl
  · split <;> rfl

lemma tickFinish_elapsedTimes (e : ℝ) (s : SimState) :
    (tickFinish e s).elapsedTimes = s.elapsedTimes := by
  simp only [tickFinish]
  split
  · rfl
  · split <;> rfl

/-! ### drawFrame field lemmas -/

lemma drawFrame_animationState (ts : ℝ) (s : SimState) :
    (drawFrame ts s).animationState =
      if maxTotalTime s.cycloidParameter ≤ tickElapsed ts s then Phase.idle
      else s.animationState := by
  simp only [drawFrame, tickFinish_animationState, tickRankingsState_cycloidParameter,
    tickClockState_cycloidParameter, tickRankingsState_animationState,
    tickClockState_animationState]

lemma drawFrame_isAnimationComplete (ts : ℝ) (s : SimState) :
    (drawFrame ts s).isAnimationComplete =
      if maxTotalTime s.cycloidParameter ≤ tickElapsed ts s then true
      else s.isAnimationComplete := by
  simp only [drawFrame, tickFinish_isAnimationComplete,
    tickRankingsState_cycloidParameter, tickClockState_cycloidParameter,
    tickRankingsState_isAnimationComplete, tickClockState_isAnimationComplete]

lemma drawFrame_pausedElapsedTime (ts : ℝ) (s : SimState) :
    (drawFrame ts s).pausedElapsedTime =
      if maxTotalTime s.cycloidParameter ≤ tickElapsed ts s then
        s.pausedElapsedTime
      else if s.animationState = Phase.running then tickElapsed ts s
      else s.pausedElapsedTime := by
  simp only [drawFrame, tickFinish_pausedElapsedTime,
    tickRankingsState_cycloidParameter, tickClockState_cycloidParameter,
    tickRankingsState_animationState, tickClockState_animationState,
    tickRankingsState_pausedElapsedTime, tickClockState_pausedElapsedTime]

lemma drawFrame_scheduledTick (ts : ℝ) (s : SimState) :
    (drawFrame ts s).scheduledTick =
      if maxTotalTime s.cycloidParameter ≤ tickElapsed ts s then false
      else if s.animationState = Phase.running then true
      else false := by
  simp only [drawFrame, tickFinish_scheduledTick,
    tickRankingsState_cycloidParameter, tickClockState_cycloidParameter,
    tickRankingsState_animationState, tickClockState_animationState]

lemma drawFrame_startTime (ts : ℝ) (s : SimState) :
    (drawFrame ts s).startTime =
      if s.startTime = none then some ts else s.startTime := by
  simp only [drawFrame, tickFinish_startTime, tickRankingsState_startTime,
    tickClockState_startTime]

lemma drawFrame_lastTimestamp (ts : ℝ) (s : SimState) :
    (drawFrame ts s).lastTimestamp =
      if s.animationState = Phase.running then some ts
      else if s.startTime = none then some ts else s.lastTimestamp := by
  simp only [drawFrame, tickFinish_lastTimestamp, tickRankingsState_lastTimestamp,
    tickClockState_lastTimestamp]

lemma drawFrame_cycloidParameter (ts : ℝ) (s : SimState) :
    (drawFrame ts s).cycloidParameter = s.cycloidParameter := by
  simp only [drawFrame, tickFinish_cycloidParameter,
    tickRankingsState_cycloidParameter, tickClockState_cycloidParameter]

lemma drawFrame_animationSpeed (ts : ℝ) (s : SimState) :
    (drawFrame ts s).animationSpeed = s.animationSpeed := by
  simp only [drawFrame, tickFinish_animationSpeed,
    tickRankingsState_animationSpeed, tickClockState_animationSpeed]

lemma drawFrame_rankings (ts : ℝ) (s : SimState) :
    (drawFrame ts s).rankings =
      newRankings s.cycloidParameter (tickElapsed ts s) := by
  simp only [drawFrame, tickFinish_rankings, tickRankingsState_rankings,
    tickClockState_cycloidParameter]

lemma drawFrame_elapsedTimes (ts : ℝ) (s : SimState) :
    (drawFrame ts s).elapsedTimes =
      if s.isAnimationComplete then
        freezeTimes s.cycloidParameter
          (progressData s.cycloidParameter (tickElapsed ts s)) s.elapsedTimes
      else s.elapsedTimes := by
  simp only [drawFrame, tickFinish_elapsedTimes, tickRankingsState_elapsedTimes,
    tickClockState_cycloidParameter, tickClockState_isAnimationComplete,
    tickClockState_elapsedTimes]

/-! ### Correctness and stability of the per-tick sort -/

lemma mem_insertByDist (z x : String × ℝ × ℝ) (l : List (String × ℝ × ℝ)) :
    z ∈ insertByDist x l ↔ z = x ∨ z ∈ l := by
  induction l with
  | nil => simp [insertByDist]
  | cons y ys ih =>
    unfold insertByDist
    split
    · simp
    · simp only [List.mem_cons, ih]
      tauto

lemma insertByDist_pairwise (x : String × ℝ × ℝ) (l : List (String × ℝ × ℝ))
    (h : l.Pairwise fun a b => a.2.2 ≤ b.2.2) :
    (insertByDist x l).Pairwise fun a b => a.2.2 ≤ b.2.2 := by
  induction l with
  | nil => simp [insertByDist]
  | cons y ys ih =>
    rw [List.pairwise_cons] at h
    obtain ⟨hy, hys⟩ := h
    unfold insertByDist
    split
    · rename_i hxy
      refine List.Pairwise.cons ?_ (List.Pairwise.cons hy hys)
      intro z hz
      rcases List.mem_cons.mp hz with rfl | hz
      · exact hxy
      · exact le_trans hxy (hy z hz)
    · rename_i hxy
      refine List.Pairwise.cons ?_ (ih hys)
      intro z hz
      rcases (mem_insertByDist z x ys).mp hz with rfl | hz2
      · exact le_of_not_le hxy
      · exact hy z hz2

lemma sortByDist_pairwise (l : List (String × ℝ × ℝ)) :
    (sortByDist l).Pairwise fun a b => a.2.2 ≤ b.2.2 := by
  induction l with
  | nil => simp [sortByDist]
  | cons x xs ih => exact insertByDist_pairwise x (sortByDist xs) ih

lemma insertByDist_filter (k : ℝ) (x : String × ℝ × ℝ)
    (l : List (String × ℝ × ℝ)) :
    (insertByDist x l).filter (fun q => q.2.2 = k) =
      if x.2.2 = k then x :: l.filter (fun q => q.2.2 = k)
      else l.filter (fun q => q.2.2 = k) := by
  induction l with
  | nil =>
    simp only [insertByDist, List.filter]
    split <;> simp_all
  | cons y ys ih =>
    unfold insertByDist
    by_cases hxy : x.2.2 ≤ y.2.2
    · rw [if_pos hxy]
      by_cases hx : x.2.2 = k <;> simp [List.filter_cons, hx]
    · rw [if_neg hxy]
      by_cases hx : x.2.2 = k
      · by_cases hy : y.2.2 = k
        · exact absurd (le_of_eq (hx.trans hy.symm)) hxy
        · simp [List.filter_cons, hx, hy, ih]
      · by_cases hy : y.2.2 = k <;> simp [List.filter_cons, hx, hy, ih]

lemma sortByDist_filter (k : ℝ) (l : List (String × ℝ × ℝ)) :
    (sortByDist l).filter (fun q => q.2.2 = k) =
      l.filter (fun q => q.2.2 = k) := by
  induction l with
  | nil => rfl
  | cons x xs ih =>
    unfold sortByDist
    rw [insertByDist_filter, ih]
    by_cases hx : x.2.2 = k <;> simp [List.filter_cons, hx]

/-! ### Unit-square bounds for the individual curves -/

lemma brachistochroneFunc_mem_square (t : ℝ) (ht0 : 0 ≤ t) (ht1 : t ≤ 1) :
    0 ≤ (brachistochroneFunc t).1 ∧ (brachistochroneFunc t).1 ≤ 1 ∧
    0 ≤ (brachistochroneFunc t).2 ∧ (brachistochroneFunc t).2 ≤ 1 := by
  have hpi := Real.pi_pos
  have hth0 : 0 ≤ t * Real.pi := mul_nonneg ht0 hpi.le
  have hthpi : t * Real.pi ≤ Real.pi := by nlinarith
  have hs0 : 0 ≤ Real.sin (t * Real.pi) :=
    Real.sin_nonneg_of_nonneg_of_le_pi hth0 hthpi
  have hsle : Real.sin (t * Real.pi) ≤ t * Real.pi := Real.sin_le hth0
  have hc1 : Real.cos (t * Real.pi) ≤ 1 := Real.cos_le_one _
  have hc2 : -1 ≤ Real.cos (t * Real.pi) := Real.neg_one_le_cos _
  unfold brachistochroneFunc
  refine ⟨div_nonneg (by linarith) hpi.le, ?_, by linarith, by linarith⟩
  rw [div_le_one hpi]
  linarith

lemma straightLineFunc_mem_square (t : ℝ) (ht0 : 0 ≤ t) (ht1 : t ≤ 1) :
    0 ≤ (straightLineFunc t).1 ∧ (straightLineFunc t).1 ≤ 1 ∧
    0 ≤ (straightLineFunc t).2 ∧ (straightLineFunc t).2 ≤ 1 := by
  exact ⟨ht0, ht1, ht0, ht1⟩

lemma parabolaFunc_mem_square (t : ℝ) (ht0 : 0 ≤ t) (ht1 : t ≤ 1) :
    0 ≤ (parabolaFunc t).1 ∧ (parabolaFunc t).1 ≤ 1 ∧
    0 ≤ (parabolaFunc t).2 ∧ (parabolaFunc t).2 ≤ 1 := by
  refine ⟨ht0, ht1, mul_nonneg ht0 (by linarith), ?_⟩
  show t * (2 - t) ≤ 1
  nlinarith [sq_nonneg (t - 1)]

lemma parametricCycloidFunc_mem_square (E t : ℝ) (hE0 : 0 ≤ E)
    (hE4 : E ≤ 1 / 4) (ht0 : 0 ≤ t) (ht1 : t ≤ 1) :
    0 ≤ (parametricCycloidFunc E t).1 ∧ (parametricCycloidFunc E t).1 ≤ 1 ∧
    0 ≤ (parametricCycloidFunc E t).2 ∧ (parametricCycloidFunc E t).2 ≤ 1 := by
  have hpi := Real.pi_pos
  have hth0 : 0 ≤ Real.pi * t := mul_nonneg hpi.le ht0
  have hthpi : Real.pi * t ≤ Real.pi := by nlinarith
  have hs0 : 0 ≤ Real.sin (Real.pi * t) :=
    Real.sin_nonneg_of_nonneg_of_le_pi hth0 hthpi
  have hsle : Real.sin (Real.pi * t) ≤ Real.pi * t := Real.sin_le hth0
  have hc1 : Real.cos (Real.pi * t) ≤ 1 := Real.cos_le_one _
  have hc2 : -1 ≤ Real.cos (Real.pi * t) := Real.neg_one_le_cos _
  have hsq : Real.sin (Real.pi * t) ^ 2 = 1 - Real.cos (Real.pi * t) ^ 2 := by
    have := Real.sin_sq_add_cos_sq (Real.pi * t)
    linarith
  unfold parametricCycloidFunc
  refine ⟨?_, ?_, ?_, ?_⟩
  · have : Real.sin (Real.pi * t) / Real.pi ≤ t := by
      rw [div_le_iff₀ hpi]
      nlinarith
    linarith
  · have : 0 ≤ Real.sin (Real.pi * t) / Real.pi := div_nonneg hs0 hpi.le
    linarith
  · have h1 : 0 ≤ (1 - Real.cos (Real.pi * t)) / 2 := by linarith
    have h2 : 0 ≤ E * Real.sin (Real.pi * t) ^ 2 :=
      mul_nonneg hE0 (sq_nonneg _)
    linarith
  · have key : 0 ≤ (1 + Real.cos (Real.pi * t)) *
        (1 / 2 - E * (1 - Real.cos (Real.pi * t))) := by
      have h1 : (0:ℝ) ≤ 1 + Real.cos (Real.pi * t) := by linarith
      have h2 : E * (1 - Real.cos (Real.pi * t)) ≤ 1 / 2 := by nlinarith
      have h3 : (0:ℝ) ≤ 1 / 2 - E * (1 - Real.cos (Real.pi * t)) := by linarith
      exact mul_nonneg h1 h3
    nlinarith [key, hsq]

/-! ### Concrete evaluations used by the scenario claims -/

lemma distanceToGoal_origin : distanceToGoal (0, 0) = Real.sqrt 2 := by
  unfold distanceToGoal
  norm_num

lemma distanceToGoal_goal : distanceToGoal (1, 1) = 0 := by
  unfold distanceToGoal
  norm_num

lemma progressData_zero (E : ℝ) :
    progressData E 0 =
      [("Brachistochrone", 0, Real.sqrt 2),
       ("Straight Line", 0, Real.sqrt 2),
       ("Parabola", 0, Real.sqrt 2),
       ("Parametric Cycloid", 0, Real.sqrt 2)] := by
  unfold progressData curves
  simp only [List.map_cons, List.map_nil, progressOf_zero]
  rw [brachistochroneFunc_zero, straightLineFunc_zero, parabolaFunc_zero,
    parametricCycloidFunc_zero, distanceToGoal_origin]

lemma sortByDist_all_sqrt2 (a b c d : String) :
    sortByDist
      [(a, 0, Real.sqrt 2), (b, 0, Real.sqrt 2),
       (c, 0, Real.sqrt 2), (d, 0, Real.sqrt 2)] =
      [(a, 0, Real.sqrt 2), (b, 0, Real.sqrt 2),
       (c, 0, Real.sqrt 2), (d, 0, Real.sqrt 2)] := by
  simp [sortByDist, insertByDist]

lemma newRankings_zero (E : ℝ) :
    newRankings E 0 =
      ["Brachistochrone", "Straight Line", "Parabola", "Parametric Cycloid"] := by
  unfold newRankings
  rw [progressData_zero, sortByDist_all_sqrt2]
  rfl

lemma maxTotalTime_eq (E : ℝ) :
    maxTotalTime E = max 2.0 (max 2.5 (max 2.1 (max (2.0 * (1 + E)) 0))) := by
  simp [maxTotalTime, curves]

lemma maxTotalTime_point_two : maxTotalTime 0.2 = 2.5 := by
  rw [maxTotalTime_eq]
  norm_num [max_def]

/-! ### Claim C1 -/

/-- C1 (counterexample): the claim that every curve of the built curve set
stays inside the unit square for every shape parameter E in [0,1] is false:
at E = 1 (which is in [0,1]) the tunable-shape curve of the curve set is at
height 3/2 > 1 at progress t = 1/2. -/
theorem c1_unit_square_counterexample :
    (0:ℝ) ≤ 1 ∧ (1:ℝ) ≤ 1 ∧ (0:ℝ) ≤ (1/2:ℝ) ∧ (1/2:ℝ) ≤ 1 ∧
    ("Parametric Cycloid",
      CurveData.mk (parametricCycloidFunc 1) "#f59e0b" (2.0 * (1 + 1))) ∈
        curves 1 ∧
    (parametricCycloidFunc 1 (1/2)).2 = 3/2 ∧
    ¬ (parametricCycloidFunc 1 (1/2)).2 ≤ 1 := by
  have hval : (parametricCycloidFunc 1 (1/2 : ℝ)).2 = 3/2 := by
    unfold parametricCycloidFunc
    have h : Real.pi * (1/2 : ℝ) = Real.pi / 2 := by ring
    rw [h, Real.cos_pi_div_two, Real.sin_pi_div_two]
    norm_num
  refine ⟨by norm_num, by norm_num, by norm_num, by norm_num, ?_, hval, ?_⟩
  · simp [curves]
  · rw [hval]
    norm_num

/-- C1 (amended): every curve of the built curve set starts at (0,0) and
ends at (1,1) for every shape parameter E in [0,1]; and the position stays
inside the unit square for every progress t in [0,1] provided E ≤ 1/4
(the tunable-shape curve leaves the square for larger E). -/
theorem c1_unit_square_amended (E t : ℝ) (hE0 : 0 ≤ E) (hE1 : E ≤ 1)
    (ht0 : 0 ≤ t) (ht1 : t ≤ 1) :
    (∀ p ∈ curves E, p.2.func 0 = (0, 0) ∧ p.2.func 1 = (1, 1)) ∧
    (E ≤ 1/4 →
      ∀ p ∈ curves E,
        0 ≤ (p.2.func t).1 ∧ (p.2.func t).1 ≤ 1 ∧
        0 ≤ (p.2.func t).2 ∧ (p.2.func t).2 ≤ 1) := by
  constructor
  · intro p hp
    simp only [curves, List.mem_cons, List.not_mem_nil, or_false] at hp
    rcases hp with rfl | rfl | rfl | rfl
    · exact ⟨brachistochroneFunc_zero, brachistochroneFunc_one⟩
    · exact ⟨straightLineFunc_zero, straightLineFunc_one⟩
    · exact ⟨parabolaFunc_zero, parabolaFunc_one⟩
    · exact ⟨parametricCycloidFunc_zero E, parametricCycloidFunc_one E⟩
  · intro hE4 p hp
    simp only [curves, List.mem_cons, List.not_mem_nil, or_false] at hp
    rcases hp with rfl | rfl | rfl | rfl
    · exact brachistochroneFunc_mem_square t ht0 ht1
    · exact straightLineFunc_mem_square t ht0 ht1
    · exact parabolaFunc_mem_square t ht0 ht1
    · exact parametricCycloidFunc_mem_square E t hE0 hE4 ht0 ht1

/-- Witness for the amended C1 at E = 0, t = 1/2. -/
theorem c1_unit_square_amended_witness :
    (0:ℝ) ≤ 0 ∧ (0:ℝ) ≤ 1 ∧ (0:ℝ) ≤ (1/2:ℝ) ∧ (1/2:ℝ) ≤ 1 ∧
    ((∀ p ∈ curves 0, p.2.func 0 = (0, 0) ∧ p.2.func 1 = (1, 1)) ∧
     ((0:ℝ) ≤ 1/4 →
       ∀ p ∈ curves 0,
         0 ≤ (p.2.func (1/2)).1 ∧ (p.2.func (1/2)).1 ≤ 1 ∧
         0 ≤ (p.2.func (1/2)).2 ∧ (p.2.func (1/2)).2 ≤ 1)) :=
  ⟨by norm_num, by norm_num, by norm_num, by norm_num,
   c1_unit_square_amended 0 (1/2) (by norm_num) (by norm_num) (by norm_num)
     (by norm_num)⟩

/-! ### Claim C4 -/

/-- C4: the four curves implement exactly the spec's parametric laws and
total times (fastest descent x=(theta-sin theta)/pi, y=(1-cos theta)/2 with
theta=pi t; direct line (t,t); quadratic (t, t(2-t)); tunable shape
x=t-sin(pi t)/pi, y=(1-cos(pi t))/2+E sin^2(pi t), totalTime=2(1+E));
consequently at elapsed 2.0 the fastest-descent curve has progress 1 and
distance 0, and the direct-line curve (totalTime 2.5) has progress 0.8,
position (0.8, 0.8) and distance within 10^-3 of 0.2828. -/
theorem c4_curve_laws_and_scenario :
    (∀ t, brachistochroneFunc t =
      ((Real.pi * t - Real.sin (Real.pi * t)) / Real.pi,
       (1 - Real.cos (Real.pi * t)) / 2)) ∧
    (∀ t : ℝ, straightLineFunc t = (t, t)) ∧
    (∀ t : ℝ, parabolaFunc t = (t, t * (2 - t))) ∧
    (∀ E t : ℝ, parametricCycloidFunc E t =
      (t - Real.sin (Real.pi * t) / Real.pi,
       (1 - Real.cos (Real.pi * t)) / 2 + E * Real.sin (Real.pi * t) ^ 2)) ∧
    (∀ E : ℝ, ((curves E).map fun p => p.2.time) = [2.0, 2.5, 2.1, 2.0 * (1 + E)]) ∧
    progressOf 2 2.0 = 1 ∧
    distanceToGoal (brachistochroneFunc (progressOf 2 2.0)) = 0 ∧
    progressOf 2 2.5 = 0.8 ∧
    straightLineFunc (progressOf 2 2.5) = (0.8, 0.8) ∧
    |distanceToGoal (straightLineFunc (progressOf 2 2.5)) - 0.2828| < 1/1000 := by
  have hp1 : progressOf 2 2.0 = 1 := by
    norm_num [progressOf]
  have hp2 : progressOf 2 2.5 = 0.8 := by
    norm_num [progressOf, min_def]
  have hdist : distanceToGoal (straightLineFunc (0.8 : ℝ)) = Real.sqrt 0.08 := by
    unfold distanceToGoal straightLineFunc
    norm_num
  refine ⟨fun t => ?_, fun t => rfl, fun t => rfl, fun E t => rfl,
    fun E => by simp [curves], hp1, ?_, hp2, by rw [hp2]; rfl, ?_⟩
  · unfold brachistochroneFunc
    rw [mul_comm Real.pi t]
  · rw [hp1, brachistochroneFunc_one, distanceToGoal_goal]
  · rw [hp2, hdist]
    have hlt : Real.sqrt 0.08 < 0.2829 := by
      rw [Real.sqrt_lt' (by norm_num : (0:ℝ) < 0.2829)]
      norm_num
    have hgt : (0.2828 : ℝ) < Real.sqrt 0.08 := by
      rw [Real.lt_sqrt (by norm_num : (0:ℝ) ≤ 0.2828)]
      norm_num
    rw [abs_lt]
    constructor <;> linarith

/-! ### Claim C9 -/

lemma progressOf_mono_bounds (T e1 e2 : ℝ) (hT : 0 < T) (h1 : 0 ≤ e1)
    (h12 : e1 ≤ e2) :
    progressOf e1 T ≤ progressOf e2 T ∧
    0 ≤ progressOf e1 T ∧ progressOf e1 T ≤ 1 ∧
    0 ≤ progressOf e2 T ∧ progressOf e2 T ≤ 1 := by
  unfold progressOf
  refine ⟨min_le_min ?_ le_rfl, le_min (div_nonneg h1 hT.le) zero_le_one,
    min_le_right _ _, le_min (div_nonneg (le_trans h1 h12) hT.le) zero_le_one,
    min_le_right _ _⟩
  exact (div_le_div_iff_of_pos_right hT).mpr h12

/-- C9: for every curve of the built set (any shape parameter E ≥ 0) and
elapsed times 0 ≤ e1 ≤ e2, progress = min(elapsed/totalTime, 1) is
non-decreasing and stays in [0,1]. -/
theorem c9_progress_monotone_clamped (E e1 e2 : ℝ) (hE : 0 ≤ E)
    (h1 : 0 ≤ e1) (h12 : e1 ≤ e2) :
    ∀ p ∈ curves E,
      progressOf e1 p.2.time ≤ progressOf e2 p.2.time ∧
      0 ≤ progressOf e1 p.2.time ∧ progressOf e1 p.2.time ≤ 1 ∧
      0 ≤ progressOf e2 p.2.time ∧ progressOf e2 p.2.time ≤ 1 := by
  intro p hp
  simp only [curves, List.mem_cons, List.not_mem_nil, or_false] at hp
  rcases hp with rfl | rfl | rfl | rfl
  · exact progressOf_mono_bounds _ e1 e2 (by norm_num) h1 h12
  · exact progressOf_mono_bounds _ e1 e2 (by norm_num) h1 h12
  · exact progressOf_mono_bounds _ e1 e2 (by norm_num) h1 h12
  · exact progressOf_mono_bounds _ e1 e2 (by linarith) h1 h12

/-- Witness for C9 at E = 0, e1 = 1, e2 = 2. -/
theorem c9_progress_monotone_clamped_witness :
    (0:ℝ) ≤ 0 ∧ (0:ℝ) ≤ 1 ∧ (1:ℝ) ≤ 2 ∧
    (∀ p ∈ curves 0,
      progressOf 1 p.2.time ≤ progressOf 2 p.2.time ∧
      0 ≤ progressOf 1 p.2.time ∧ progressOf 1 p.2.time ≤ 1 ∧
      0 ≤ progressOf 2 p.2.time ∧ progressOf 2 p.2.time ≤ 1) :=
  ⟨by norm_num, by norm_num, by norm_num,
   c9_progress_monotone_clamped 0 1 2 (by norm_num) (by norm_num) (by norm_num)⟩

/-! ### Claim C10 -/

/-- C10: at shape parameter E = 0 the tunable-shape (Parametric Cycloid)
curve coincides pointwise with the Brachistochrone curve, and its total
time 2(1+0) equals the Brachistochrone's 2.0 seconds. -/
theorem c10_cycloid_zero_is_brachistochrone :
    (∀ t, parametricCycloidFunc 0 t = brachistochroneFunc t) ∧
    ((curves 0).map fun p => p.2.time) = [2.0, 2.5, 2.1, 2.0] := by
  constructor
  · intro t
    unfold parametricCycloidFunc brachistochroneFunc
    rw [mul_comm Real.pi t, Prod.mk.injEq]
    constructor
    · rw [eq_div_iff Real.pi_ne_zero, sub_mul,
        div_mul_cancel₀ _ Real.pi_ne_zero]
    · ring
  · norm_num [curves]

/-! ### Claim C6 -/

lemma indexOfJS_not_mem (l : List String) (x : String) (h : x ∉ l) :
    indexOfJS l x = -1 := by
  induction l with
  | nil => rfl
  | cons y ys ih =>
    simp only [List.mem_cons, not_or] at h
    obtain ⟨h1, h2⟩ := h
    unfold indexOfJS
    rw [if_neg (fun hh => h1 hh.symm), ih h2]
    simp

/-- C6 (counterexample): a label absent from the previous rankings has
indexOf -1, and the rankings display shows a down indicator for it
(at rendered index 0, not complete), not "no indicator" as claimed. -/
theorem c6_rank_delta_counterexample :
    indexOfJS [] "Brachistochrone" = -1 ∧
    "Brachistochrone" ∉ ([] : List String) ∧
    rankIndicator false [] "Brachistochrone" 0 = some Arrow.down := by
  refine ⟨rfl, by simp, by decide⟩

/-- C6 (amended): with delta = prevRankings.indexOf(label) - index (indexOf
being -1 for an absent label), the indicator is: nothing once the run is
complete; otherwise an up arrow for positive delta, a down arrow for
negative delta (which includes the label-not-found case, since -1 is below
every rendered index), and nothing for zero delta. -/
theorem c6_rank_delta_amended (complete : Bool) (prev : List String)
    (label : String) (index : ℕ) :
    (rankIndicator complete prev label index =
      if complete then none
      else if 0 < indexOfJS prev label - (index : ℤ) then some Arrow.up
      else if indexOfJS prev label - (index : ℤ) < 0 then some Arrow.down
      else none) ∧
    (label ∉ prev → indexOfJS prev label = -1) := by
  refine ⟨?_, indexOfJS_not_mem prev label⟩
  unfold rankIndicator
  cases complete with
  | true => simp
  | false =>
    by_cases h : indexOfJS prev label = (index : ℤ)
    · simp [h]
    · rcases lt_or_gt_of_ne h with hlt | hgt
      · have h1 : ¬ ((index : ℤ) < indexOfJS prev label) := by omega
        have h2 : ¬ (0 < indexOfJS prev label - (index : ℤ)) := by omega
        have h3 : indexOfJS prev label - (index : ℤ) < 0 := by omega
        simp [h, h1, h2, h3]
      · have h1 : (index : ℤ) < indexOfJS prev label := by omega
        have h2 : 0 < indexOfJS prev label - (index : ℤ) := by omega
        simp [h, h1, h2]

/-! ### tickElapsed case analysis -/

lemma tickElapsed_running (ts : ℝ) (s : SimState) (L : ℝ)
    (hrun : s.animationState = Phase.running) (hstart : ¬ s.startTime = none)
    (hlast : s.lastTimestamp = some L) (hL : ¬ L = 0) :
    tickElapsed ts s =
      s.pausedElapsedTime + (ts - L) / 1000 * s.animationSpeed := by
  simp only [tickElapsed, if_neg hstart, hlast, if_pos hrun, jsOr, if_neg hL]

lemma tickElapsed_running_fresh (ts : ℝ) (s : SimState)
    (hrun : s.animationState = Phase.running) (hstart : ¬ s.startTime = none)
    (hlast : s.lastTimestamp = none) :
    tickElapsed ts s = s.pausedElapsedTime := by
  simp only [tickElapsed, if_neg hstart, hlast, if_pos hrun, jsOr]
  ring

lemma tickElapsed_first (ts : ℝ) (s : SimState)
    (hstart : s.startTime = none) (hts : ¬ ts = 0) :
    tickElapsed ts s = s.pausedElapsedTime := by
  simp only [tickElapsed, if_pos hstart, jsOr, if_neg hts]
  split
  · ring
  · rfl

lemma tickElapsed_notRunning (ts : ℝ) (s : SimState)
    (hrun : ¬ s.animationState = Phase.running) :
    tickElapsed ts s = s.pausedElapsedTime := by
  simp only [tickElapsed, if_neg hrun]

/-! ### Claim C7 -/

/-- A concrete running state whose last recorded frame timestamp is 1000
and whose banked elapsed time is 1 second, at speed 1. -/
noncomputable def c7State : SimState :=
  { initialState with
    animationState := Phase.running
    animationSpeed := 1
    startTime := some 100
    lastTimestamp := some 1000
    pausedElapsedTime := 1 }

/-- C7 (counterexample): feeding drawFrame the timestamp 500, earlier than
the recorded last frame timestamp 1000, yields elapsed 1/2 < 1: the delta
is not clamped to zero and the accumulated elapsed time decreases. -/
theorem c7_backward_clock_counterexample :
    c7State.lastTimestamp = some 1000 ∧
    c7State.pausedElapsedTime = 1 ∧
    tickElapsed 500 c7State = 1/2 ∧
    (drawFrame 500 c7State).pausedElapsedTime = 1/2 := by
  have he : tickElapsed 500 c7State = 1/2 := by
    rw [tickElapsed_running 500 c7State 1000]
    · show (1:ℝ) + (500 - 1000) / 1000 * 1 = 1/2
      norm_num
    · rfl
    · simp [c7State, initialState]
    · rfl
    · norm_num
  refine ⟨rfl, rfl, he, ?_⟩
  rw [drawFrame_pausedElapsedTime, he]
  have hcp : c7State.cycloidParameter = 0.2 := rfl
  rw [hcp, maxTotalTime_point_two,
    if_neg (by norm_num : ¬ (2.5:ℝ) ≤ 1/2),
    if_pos (show c7State.animationState = Phase.running from rfl)]

/-- C7 (amended): the computed delta is applied unclamped: while running
with a recorded (non-zero) last frame timestamp L and a positive speed,
a timestamp earlier than L makes the computed elapsed time strictly
smaller than the banked elapsed time, so the accumulated elapsed time
decreases instead of being protected by a zero-clamp. -/
theorem c7_backward_clock_amended (s : SimState) (ts L : ℝ)
    (hrun : s.animationState = Phase.running) (hstart : ¬ s.startTime = none)
    (hlast : s.lastTimestamp = some L) (hL : ¬ L = 0) (hts : ts < L)
    (hspeed : 0 < s.animationSpeed) :
    tickElapsed ts s =
      s.pausedElapsedTime + (ts - L) / 1000 * s.animationSpeed ∧
    tickElapsed ts s < s.pausedElapsedTime := by
  have heq := tickElapsed_running ts s L hrun hstart hlast hL
  refine ⟨heq, ?_⟩
  rw [heq]
  have hneg : (ts - L) / 1000 * s.animationSpeed < 0 :=
    mul_neg_of_neg_of_pos
      (div_neg_of_neg_of_pos (by linarith) (by norm_num)) hspeed
  linarith

/-- Witness for the amended C7 at the concrete backward-clock state. -/
theorem c7_backward_clock_amended_witness :
    c7State.animationState = Phase.running ∧ ¬ c7State.startTime = none ∧
    c7State.lastTimestamp = some 1000 ∧ ¬ (1000:ℝ) = 0 ∧ (500:ℝ) < 1000 ∧
    0 < c7State.animationSpeed ∧
    (tickElapsed 500 c7State =
      c7State.pausedElapsedTime + (500 - 1000) / 1000 * c7State.animationSpeed ∧
     tickElapsed 500 c7State < c7State.pausedElapsedTime) :=
  ⟨rfl, by simp [c7State, initialState], rfl, by norm_num, by norm_num,
   by norm_num [c7State, initialState],
   c7_backward_clock_amended c7State 500 1000 rfl
     (by simp [c7State, initialState]) rfl (by norm_num) (by norm_num)
     (by norm_num [c7State, initialState])⟩

/-! ### Step lemmas for concrete traces (at cycloidParameter 0.2) -/

lemma drawFrame_step_running (ts : ℝ) (s : SimState) (e : ℝ)
    (he : tickElapsed ts s = e)
    (hrun : s.animationState = Phase.running)
    (hcp : s.cycloidParameter = 0.2)
    (hlt : e < 2.5) :
    (drawFrame ts s).pausedElapsedTime = e ∧
    (drawFrame ts s).animationState = Phase.running ∧
    (drawFrame ts s).lastTimestamp = some ts ∧
    (drawFrame ts s).startTime =
      (if s.startTime = none then some ts else s.startTime) ∧
    (drawFrame ts s).animationSpeed = s.animationSpeed ∧
    (drawFrame ts s).cycloidParameter = 0.2 ∧
    (drawFrame ts s).isAnimationComplete = s.isAnimationComplete := by
  have hmax : ¬ maxTotalTime s.cycloidParameter ≤ tickElapsed ts s := by
    rw [hcp, maxTotalTime_point_two, he]
    linarith
  refine ⟨?_, ?_, ?_, ?_, ?_, ?_, ?_⟩
  · rw [drawFrame_pausedElapsedTime, if_neg hmax, if_pos hrun, he]
  · rw [drawFrame_animationState, if_neg hmax, hrun]
  · rw [drawFrame_lastTimestamp, if_pos hrun]
  · rw [drawFrame_startTime]
  · rw [drawFrame_animationSpeed]
  · rw [drawFrame_cycloidParameter, hcp]
  · rw [drawFrame_isAnimationComplete, if_neg hmax]

lemma drawFrame_step_paused (ts : ℝ) (s : SimState)
    (hp : s.animationState = Phase.paused)
    (hcp : s.cycloidParameter = 0.2)
    (hlt : s.pausedElapsedTime < 2.5)
    (hstart : ¬ s.startTime = none) :
    (drawFrame ts s).pausedElapsedTime = s.pausedElapsedTime ∧
    (drawFrame ts s).animationState = Phase.paused ∧
    (drawFrame ts s).lastTimestamp = s.lastTimestamp ∧
    (drawFrame ts s).startTime = s.startTime ∧
    (drawFrame ts s).animationSpeed = s.animationSpeed ∧
    (drawFrame ts s).cycloidParameter = 0.2 := by
  have hrunne : ¬ s.animationState = Phase.running := by
    rw [hp]
    intro hcontra
    exact Phase.noConfusion hcontra
  have he : tickElapsed ts s = s.pausedElapsedTime :=
    tickElapsed_notRunning ts s hrunne
  have hmax : ¬ maxTotalTime s.cycloidParameter ≤ tickElapsed ts s := by
    rw [hcp, maxTotalTime_point_two, he]
    linarith
  refine ⟨?_, ?_, ?_, ?_, ?_, ?_⟩
  · rw [drawFrame_pausedElapsedTime, if_neg hmax, if_neg hrunne]
  · rw [drawFrame_animationState, if_neg hmax, hp]
  · rw [drawFrame_lastTimestamp, if_neg hrunne, if_neg hstart]
  · rw [drawFrame_startTime, if_neg hstart]
  · rw [drawFrame_animationSpeed]
  · rw [drawFrame_cycloidParameter, hcp]

/-! ### Handler projection lemmas -/

lemma handlePauseAnimation_pausedElapsedTime (s : SimState) :
    (handlePauseAnimation s).pausedElapsedTime = s.pausedElapsedTime := rfl

lemma handlePauseAnimation_startTime (s : SimState) :
    (handlePauseAnimation s).startTime = s.startTime := rfl

lemma handlePauseAnimation_lastTimestamp (s : SimState) :
    (handlePauseAnimation s).lastTimestamp = s.lastTimestamp := rfl

lemma handlePauseAnimation_animationSpeed (s : SimState) :
    (handlePauseAnimation s).animationSpeed = s.animationSpeed := rfl

lemma handlePauseAnimation_cycloidParameter (s : SimState) :
    (handlePauseAnimation s).cycloidParameter = s.cycloidParameter := rfl

lemma handleResumeAnimation_pausedElapsedTime (s : SimState) :
    (handleResumeAnimation s).pausedElapsedTime = s.pausedElapsedTime := rfl

lemma handleResumeAnimation_startTime (s : SimState) :
    (handleResumeAnimation s).startTime = s.startTime := rfl

lemma handleResumeAnimation_animationSpeed (s : SimState) :
    (handleResumeAnimation s).animationSpeed = s.animationSpeed := rfl

lemma handleResumeAnimation_cycloidParameter (s : SimState) :
    (handleResumeAnimation s).cycloidParameter = s.cycloidParameter := rfl

/-! ### Claim C3 -/

/-- The state right after pressing Start with the speed slider at 1. -/
noncomputable def c3Start : SimState :=
  handleStartAnimation { initialState with animationSpeed := 1 }

/-- C3: pause/resume continuity. Starting at speed 1, a first frame at
timestamp 100 and a second at 1100 bank exactly 1 second of elapsed time;
after pause, one paused repaint at an arbitrary timestamp Tp, resume at an
arbitrary later wall-clock time (first resumed frame at any timestamp
T > 1100, which contributes zero delta because resume cleared the last
frame timestamp), and a further frame 500 ms later, the banked elapsed
time is exactly 1.5 seconds: no jump and no loss however long the
pause lasted. -/
theorem c3_pause_resume_continuity (Tp T : ℝ) (hT : 1100 < T) :
    (drawFrame 1100 (drawFrame 100 c3Start)).pausedElapsedTime = 1 ∧
    (drawFrame (T + 500)
      (drawFrame T (handleResumeAnimation
        (drawFrame Tp (handlePauseAnimation
          (drawFrame 1100 (drawFrame 100 c3Start))))))).pausedElapsedTime
      = 1.5 := by
  -- step 1: first frame at timestamp 100 (zero delta, banks 0)
  have e2 : tickElapsed 100 c3Start = 0 :=
    (tickElapsed_first 100 c3Start rfl (by norm_num)).trans rfl
  obtain ⟨h2p, h2a, h2l, h2s, h2sp, h2cp, _⟩ :=
    drawFrame_step_running 100 c3Start 0 e2 rfl rfl (by norm_num)
  rw [if_pos (show c3Start.startTime = none from rfl)] at h2s
  -- step 2: frame at 1100 banks (1100-100)/1000 * 1 = 1 second
  have e3 : tickElapsed 1100 (drawFrame 100 c3Start) = 1 := by
    rw [tickElapsed_running 1100 _ 100 h2a (by rw [h2s]; simp) h2l
      (by norm_num), h2p, h2sp]
    show (0:ℝ) + (1100 - 100) / 1000 * 1 = 1
    norm_num
  obtain ⟨h3p, h3a, h3l, h3s, h3sp, h3cp, _⟩ :=
    drawFrame_step_running 1100 _ 1 e3 h2a h2cp (by norm_num)
  rw [if_neg (by rw [h2s]; simp), h2s] at h3s
  rw [h2sp] at h3sp
  refine ⟨h3p, ?_⟩
  -- step 3: pause, then one paused repaint at arbitrary timestamp Tp
  have h4a : (handlePauseAnimation (drawFrame 1100 (drawFrame 100 c3Start))
      ).animationState = Phase.paused := rfl
  have h4p := (handlePauseAnimation_pausedElapsedTime _).trans h3p
  have h4s := (handlePauseAnimation_startTime _).trans h3s
  have h4l := (handlePauseAnimation_lastTimestamp _).trans h3l
  have h4sp := (handlePauseAnimation_animationSpeed _).trans h3sp
  have h4cp := (handlePauseAnimation_cycloidParameter _).trans h3cp
  obtain ⟨h5p, h5a, h5l, h5s, h5sp, h5cp⟩ :=
    drawFrame_step_paused Tp _ h4a h4cp (by rw [h4p]; norm_num)
      (by rw [h4s]; simp)
  rw [h4p] at h5p
  rw [h4s] at h5s
  rw [h4l] at h5l
  rw [h4sp] at h5sp
  -- step 4: resume clears the last timestamp, first resumed frame at T
  have h6a : (handleResumeAnimation (drawFrame Tp (handlePauseAnimation
      (drawFrame 1100 (drawFrame 100 c3Start))))).animationState =
      Phase.running := rfl
  have h6l : (handleResumeAnimation (drawFrame Tp (handlePauseAnimation
      (drawFrame 1100 (drawFrame 100 c3Start))))).lastTimestamp = none := rfl
  have h6p := (handleResumeAnimation_pausedElapsedTime _).trans h5p
  have h6s := (handleResumeAnimation_startTime _).trans h5s
  have h6sp := (handleResumeAnimation_animationSpeed _).trans h5sp
  have h6cp := (handleResumeAnimation_cycloidParameter _).trans h5cp
  have e7 : tickElapsed T (handleResumeAnimation (drawFrame Tp
      (handlePauseAnimation (drawFrame 1100 (drawFrame 100 c3Start))))) = 1 := by
    rw [tickElapsed_running_fresh T _ h6a (by rw [h6s]; simp) h6l, h6p]
  obtain ⟨h7p, h7a, h7l, h7s, h7sp, h7cp, _⟩ :=
    drawFrame_step_running T _ 1 e7 h6a h6cp (by norm_num)
  rw [h6s, if_neg (by simp : ¬ (some (100:ℝ) = none))] at h7s
  rw [h6sp] at h7sp
  -- step 5: the next resumed frame, 500 ms later, banks 0.5 more seconds
  have e8 : tickElapsed (T + 500) (drawFrame T (handleResumeAnimation
      (drawFrame Tp (handlePauseAnimation (drawFrame 1100
        (drawFrame 100 c3Start)))))) = 1.5 := by
    rw [tickElapsed_running (T + 500) _ T h7a
      (by rw [h7s]; simp) h7l (by intro h0; rw [h0] at hT; linarith),
      h7p, h7sp]
    show (1:ℝ) + (T + 500 - T) / 1000 * 1 = 1.5
    have hc : T + 500 - T = 500 := by ring
    rw [hc]
    norm_num
  obtain ⟨h8p, _, _, _, _, _, _⟩ :=
    drawFrame_step_running (T + 500) _ 1.5 e8 h7a h7cp (by norm_num)
  exact h8p

/-- Witness for C3 at Tp = 2000, T = 5000. -/
theorem c3_pause_resume_continuity_witness :
    (1100:ℝ) < 5000 ∧
    ((drawFrame 1100 (drawFrame 100 c3Start)).pausedElapsedTime = 1 ∧
     (drawFrame (5000 + 500)
       (drawFrame 5000 (handleResumeAnimation
         (drawFrame 2000 (handlePauseAnimation
           (drawFrame 1100 (drawFrame 100 c3Start))))))).pausedElapsedTime
       = 1.5) :=
  ⟨by norm_num, c3_pause_resume_continuity 2000 5000 (by norm_num)⟩

/-! ### Claim C5 -/

/-- State after Start (defaults: speed 0.5, E 0.2) and a first frame at
timestamp 1000. -/
noncomputable def c5s1 : SimState := drawFrame 1000 (handleStartAnimation initialState)

/-- State after the next frame at timestamp 6000, whose elapsed time
(6000-1000)/1000*0.5 = 2.5 reaches maxTotalTime 0.2 = 2.5: the
completion-detecting call. -/
noncomputable def c5s2 : SimState := drawFrame 6000 c5s1

lemma freezeTimes_labels (E e : ℝ) (old : String → Option ℝ) :
    freezeTimes E (progressData E e) old "Brachistochrone" = some 2.0 ∧
    freezeTimes E (progressData E e) old "Straight Line" = some 2.5 ∧
    freezeTimes E (progressData E e) old "Parabola" = some 2.1 ∧
    freezeTimes E (progressData E e) old "Parametric Cycloid" =
      some (2.0 * (1 + E)) :=
  ⟨rfl, rfl, rfl, rfl⟩

lemma c5s1_facts :
    c5s1.pausedElapsedTime = 0 ∧ c5s1.animationState = Phase.running ∧
    c5s1.lastTimestamp = some 1000 ∧ c5s1.startTime = some 1000 ∧
    c5s1.animationSpeed = 0.5 ∧ c5s1.cycloidParameter = 0.2 ∧
    c5s1.isAnimationComplete = false ∧ c5s1.elapsedTimes = fun _ => none := by
  have e1 : tickElapsed 1000 (handleStartAnimation initialState) = 0 :=
    (tickElapsed_first 1000 _ rfl (by norm_num)).trans rfl
  obtain ⟨h1p, h1a, h1l, h1s, h1sp, h1cp, h1c⟩ :=
    drawFrame_step_running 1000 (handleStartAnimation initialState) 0 e1 rfl rfl
      (by norm_num)
  rw [if_pos (show (handleStartAnimation initialState).startTime = none
    from rfl)] at h1s
  have h1et : c5s1.elapsedTimes = fun _ => none := by
    show (drawFrame 1000 (handleStartAnimation initialState)).elapsedTimes = _
    rw [drawFrame_elapsedTimes,
      if_neg (by rw [show (handleStartAnimation initialState
        ).isAnimationComplete = false from rfl]; simp)]
    rfl
  exact ⟨h1p, h1a, h1l, h1s, h1sp, h1cp, h1c, h1et⟩

lemma c5_tickElapsed : tickElapsed 6000 c5s1 = 2.5 := by
  obtain ⟨h1p, h1a, h1l, h1s, h1sp, _, _, _⟩ := c5s1_facts
  rw [tickElapsed_running 6000 c5s1 1000 h1a (by rw [h1s]; simp) h1l
    (by norm_num), h1p, h1sp]
  norm_num

lemma c5s2_facts :
    c5s2.animationState = Phase.idle ∧ c5s2.isAnimationComplete = true ∧
    c5s2.scheduledTick = false ∧ c5s2.elapsedTimes = fun _ => none := by
  obtain ⟨_, _, _, _, _, h1cp, h1c, h1et⟩ := c5s1_facts
  have hmax : maxTotalTime c5s1.cycloidParameter ≤ tickElapsed 6000 c5s1 := by
    rw [h1cp, maxTotalTime_point_two, c5_tickElapsed]
  refine ⟨?_, ?_, ?_, ?_⟩
  · show (drawFrame 6000 c5s1).animationState = _
    rw [drawFrame_animationState, if_pos hmax]
  · show (drawFrame 6000 c5s1).isAnimationComplete = _
    rw [drawFrame_isAnimationComplete, if_pos hmax]
  · show (drawFrame 6000 c5s1).scheduledTick = _
    rw [drawFrame_scheduledTick, if_pos hmax]
  · show (drawFrame 6000 c5s1).elapsedTimes = _
    rw [drawFrame_elapsedTimes, if_neg (by rw [h1c]; simp), h1et]

/-- C5 (counterexample): on the very drawFrame call that detects
completion (elapsed 2.5 reaches maxTotalTime 2.5), the run is marked
complete and idle and no tick is scheduled, but the frozen display time of
the Brachistochrone label is still unset (none), not its totalTime 2.0:
the frozen times are only written by later calls, because the source
guards the elapsedTimes update by the isAnimationComplete value read
before this call. -/
theorem c5_completion_counterexample :
    c5s2.animationState = Phase.idle ∧
    c5s2.isAnimationComplete = true ∧
    c5s2.scheduledTick = false ∧
    c5s2.elapsedTimes "Brachistochrone" = none := by
  obtain ⟨h1, h2, h3, h4⟩ := c5s2_facts
  exact ⟨h1, h2, h3, by rw [h4]⟩

/-- C5 (amended): the completion-detecting call switches the phase to Idle
with the persistent complete flag set and schedules no further tick, but
leaves the frozen times untouched; every subsequent drawFrame call in a
completed state writes each label's own curve totalTime into the frozen
display map (so the values are populated one call after completion and
then never change while the shape parameter is unchanged), and the display
metric of a completed state is the frozen-time side. -/
theorem c5_completion_amended (s : SimState) (ts : ℝ)
    (hrun : s.animationState = Phase.running)
    (hnc : s.isAnimationComplete = false)
    (hdone : maxTotalTime s.cycloidParameter ≤ tickElapsed ts s) :
    ((drawFrame ts s).animationState = Phase.idle ∧
     (drawFrame ts s).isAnimationComplete = true ∧
     (drawFrame ts s).scheduledTick = false ∧
     (drawFrame ts s).elapsedTimes = s.elapsedTimes) ∧
    (∀ (ts2 : ℝ) (s2 : SimState), s2.isAnimationComplete = true →
      (drawFrame ts2 s2).elapsedTimes "Brachistochrone" = some 2.0 ∧
      (drawFrame ts2 s2).elapsedTimes "Straight Line" = some 2.5 ∧
      (drawFrame ts2 s2).elapsedTimes "Parabola" = some 2.1 ∧
      (drawFrame ts2 s2).elapsedTimes "Parametric Cycloid" =
        some (2.0 * (1 + s2.cycloidParameter)) ∧
      (drawFrame ts2 s2).isAnimationComplete = true ∧
      displayMetric (drawFrame ts2 s2) "Brachistochrone" =
        Sum.inl ((drawFrame ts2 s2).elapsedTimes "Brachistochrone")) := by
  constructor
  · refine ⟨?_, ?_, ?_, ?_⟩
    · rw [drawFrame_animationState, if_pos hdone]
    · rw [drawFrame_isAnimationComplete, if_pos hdone]
    · rw [drawFrame_scheduledTick, if_pos hdone]
    · rw [drawFrame_elapsedTimes, if_neg (by rw [hnc]; simp)]
  · intro ts2 s2 hc2
    have het : (drawFrame ts2 s2).elapsedTimes =
        freezeTimes s2.cycloidParameter
          (progressData s2.cycloidParameter (tickElapsed ts2 s2))
          s2.elapsedTimes := by
      rw [drawFrame_elapsedTimes, if_pos (by rw [hc2])]
    have hcomp : (drawFrame ts2 s2).isAnimationComplete = true := by
      rw [drawFrame_isAnimationComplete]
      split
      · rfl
      · exact hc2
    obtain ⟨hb, hs, hp, hc⟩ :=
      freezeTimes_labels s2.cycloidParameter (tickElapsed ts2 s2)
        s2.elapsedTimes
    refine ⟨?_, ?_, ?_, ?_, hcomp, ?_⟩
    · rw [het]
      exact hb
    · rw [het]
      exact hs
    · rw [het]
      exact hp
    · rw [het]
      exact hc
    · unfold displayMetric
      rw [if_pos (by rw [hcomp])]

/-- Witness for the amended C5 at the completion-detecting call of the
concrete run c5s1 at timestamp 6000. -/
theorem c5_completion_amended_witness :
    c5s1.animationState = Phase.running ∧
    c5s1.isAnimationComplete = false ∧
    maxTotalTime c5s1.cycloidParameter ≤ tickElapsed 6000 c5s1 ∧
    (((drawFrame 6000 c5s1).animationState = Phase.idle ∧
      (drawFrame 6000 c5s1).isAnimationComplete = true ∧
      (drawFrame 6000 c5s1).scheduledTick = false ∧
      (drawFrame 6000 c5s1).elapsedTimes = c5s1.elapsedTimes) ∧
     (∀ (ts2 : ℝ) (s2 : SimState), s2.isAnimationComplete = true →
       (drawFrame ts2 s2).elapsedTimes "Brachistochrone" = some 2.0 ∧
       (drawFrame ts2 s2).elapsedTimes "Straight Line" = some 2.5 ∧
       (drawFrame ts2 s2).elapsedTimes "Parabola" = some 2.1 ∧
       (drawFrame ts2 s2).elapsedTimes "Parametric Cycloid" =
         some (2.0 * (1 + s2.cycloidParameter)) ∧
       (drawFrame ts2 s2).isAnimationComplete = true ∧
       displayMetric (drawFrame ts2 s2) "Brachistochrone" =
         Sum.inl ((drawFrame ts2 s2).elapsedTimes "Brachistochrone"))) :=
  ⟨(c5s1_facts).2.1, (c5s1_facts).2.2.2.2.2.2.1,
   by rw [(c5s1_facts).2.2.2.2.2.1, maxTotalTime_point_two, c5_tickElapsed],
   c5_completion_amended c5s1 6000 (c5s1_facts).2.1
     (c5s1_facts).2.2.2.2.2.2.1
     (by rw [(c5s1_facts).2.2.2.2.2.1, maxTotalTime_point_two, c5_tickElapsed])⟩

/-! ### Claim C8 -/

/-- A mid-run state with published rankings and a pending scheduled tick. -/
noncomputable def c8State : SimState :=
  { initialState with
    animationState := Phase.paused
    pausedElapsedTime := 1
    rankings := ["Parabola", "Brachistochrone", "Straight Line",
      "Parametric Cycloid"]
    prevRankings := ["Brachistochrone", "Parabola", "Straight Line",
      "Parametric Cycloid"]
    scheduledTick := true }

/-- C8 (counterexample): reset does not discard the retained ranking
snapshot: from a state with published rankings, handleResetAnimation
returns to Idle but leaves rankings and previousRankings untouched
(both still non-empty). -/
theorem c8_reset_counterexample :
    (handleResetAnimation c8State).animationState = Phase.idle ∧
    (handleResetAnimation c8State).rankings =
      ["Parabola", "Brachistochrone", "Straight Line", "Parametric Cycloid"] ∧
    (handleResetAnimation c8State).rankings ≠ [] ∧
    (handleResetAnimation c8State).prevRankings ≠ [] :=
  ⟨rfl, rfl, by simp [handleResetAnimation, c8State, initialState],
   by simp [handleResetAnimation, c8State, initialState]⟩

/-- C8 (amended): from any state, reset returns to Idle with zeroed
elapsed time, cleared timestamps and cleared frozen times, and the effect
cleanup triggered by the state change cancels any pending scheduled tick;
but the rankings, previous rankings, per-label distances and the
completion flag are retained, not discarded. -/
theorem c8_reset_amended (s : SimState) :
    (handleResetAnimation s).animationState = Phase.idle ∧
    (handleResetAnimation s).pausedElapsedTime = 0 ∧
    (handleResetAnimation s).startTime = none ∧
    (handleResetAnimation s).lastTimestamp = none ∧
    (handleResetAnimation s).elapsedTimes = (fun _ => none) ∧
    (handleResetAnimation s).rankings = s.rankings ∧
    (handleResetAnimation s).prevRankings = s.prevRankings ∧
    (handleResetAnimation s).distanceToEnd = s.distanceToEnd ∧
    (handleResetAnimation s).isAnimationComplete = s.isAnimationComplete ∧
    (effectCleanup (handleResetAnimation s)).scheduledTick = false :=
  ⟨rfl, rfl, rfl, rfl, rfl, rfl, rfl, rfl, rfl, rfl⟩

/-! ### Claim C2 -/

/-- A state whose previously published ranking lists Straight Line ahead
of Brachistochrone, paused at elapsed 0 (where all four distances tie). -/
noncomputable def c2State : SimState :=
  { initialState with
    animationState := Phase.paused
    rankings := ["Straight Line", "Brachistochrone", "Parabola",
      "Parametric Cycloid"] }

/-- C2 (counterexample): at elapsed 0 the Brachistochrone and Straight
Line distances are exactly equal, the previously published ranking lists
Straight Line first, yet the tick's freshly published ranking lists
Brachistochrone first: the sort breaks ties by the curve-definition order
of the curves object, not by the previous ranking snapshot, so
equal-distance curves do swap relative to the previous snapshot. -/
theorem c2_tie_break_counterexample :
    distanceToGoal (brachistochroneFunc (progressOf 0 2.0)) =
      distanceToGoal (straightLineFunc (progressOf 0 2.5)) ∧
    c2State.rankings =
      ["Straight Line", "Brachistochrone", "Parabola", "Parametric Cycloid"] ∧
    (drawFrame 0 c2State).rankings =
      ["Brachistochrone", "Straight Line", "Parabola", "Parametric Cycloid"] ∧
    indexOfJS c2State.rankings "Straight Line" <
      indexOfJS c2State.rankings "Brachistochrone" ∧
    indexOfJS (drawFrame 0 c2State).rankings "Brachistochrone" <
      indexOfJS (drawFrame 0 c2State).rankings "Straight Line" := by
  have hdist : distanceToGoal (brachistochroneFunc (progressOf 0 2.0)) =
      distanceToGoal (straightLineFunc (progressOf 0 2.5)) := by
    rw [progressOf_zero, progressOf_zero, brachistochroneFunc_zero,
      straightLineFunc_zero]
  have hrank : (drawFrame 0 c2State).rankings =
      ["Brachistochrone", "Straight Line", "Parabola", "Parametric Cycloid"] := by
    rw [drawFrame_rankings,
      tickElapsed_notRunning 0 c2State
        (by intro h; exact Phase.noConfusion (rfl.trans h :
          Phase.paused = Phase.running)),
      show c2State.pausedElapsedTime = 0 from rfl,
      show c2State.cycloidParameter = 0.2 from rfl, newRankings_zero]
  refine ⟨hdist, rfl, hrank, by decide, ?_⟩
  rw [hrank]
  decide

/-- C2 (amended): each tick's freshly published ranking is the
progressData entries sorted ascending by distance, with ties broken by the
fixed insertion order of the curves object (a stable sort of the
definition-order entry list): the sorted list is pairwise ordered by
distance, and for every distance value the equal-distance entries appear
in exactly their curve-definition order, independent of the previous
ranking snapshot. -/
theorem c2_sort_amended (E elapsed : ℝ) :
    newRankings E elapsed = (sortByDist (progressData E elapsed)).map Prod.fst ∧
    (sortByDist (progressData E elapsed)).Pairwise
      (fun a b => a.2.2 ≤ b.2.2) ∧
    (∀ k : ℝ, (sortByDist (progressData E elapsed)).filter
        (fun q => q.2.2 = k) =
      (progressData E elapsed).filter (fun q => q.2.2 = k)) :=
  ⟨rfl, sortByDist_pairwise _, fun k => sortByDist_filter k _⟩

end Brachistochrone
